import Mathlib

/-!
Verification of the SimpleNotesApp backend (src/main.py, src/models.py)
against its natural-language specification.

The persistence layer (SQLAlchemy session over a relational store) is
modelled as an explicit state value `DB` holding the `users` and `notes`
tables as lists; each request handler from src/main.py becomes a pure
function from the pre-state and the request data to the post-state and an
HTTP result.  Nondeterministic inputs of the real system (the random
source behind `secrets.choice`, the bcrypt salt, freshly assigned primary
keys, the wall clock) are passed as explicit parameters.  Timestamps are
abstracted as natural numbers; ISO-8601 serialization is outside the
model.
-/

namespace SimpleNotes

/-- The Python expression `string.ascii_letters + string.digits`
(src/main.py line 53): lowercase letters, then uppercase letters, then
digits. -/
def alphabet : List Char :=
  "abcdefghijklmnopqrstuvwxyzABCDEFGHIJKLMNOPQRSTUVWXYZ0123456789".data

/-- `generate_share_id` (src/main.py lines 52-53): ten characters, each
obtained by `secrets.choice` over `alphabet`.  The random source is the
explicit oracle `rand`; position `i` of the result is the `rand i`-th
symbol of the alphabet. -/
def generate_share_id (rand : Fin 10 → Fin 62) : String :=
  ⟨(List.finRange 10).map fun i => alphabet.get (Fin.cast (by rfl) (rand i))⟩

/-- A bcrypt-class salted password hash.
Modelled from the spec: `auth.py` (the Authenticator) is not under src/;
only its callers are.  The spec's contract is `verify_password(plaintext,
hash)` is "true iff plaintext matches the hash under the algorithm's
comparison", so the one-way digest is abstracted as a value from which the
comparison is exact; one-wayness itself is not expressible in a shallow
embedding. -/
structure Hash where
  salt : String
  digest : String
deriving Repr, DecidableEq

/-- Modelled from the spec: `hash_password(plaintext)` from auth.py,
"deterministic one-way transform", salted per call; the per-call random
salt is an explicit parameter. -/
def hash_password (salt : String) (plaintext : String) : Hash :=
  ⟨salt, plaintext⟩

/-- Modelled from the spec: `verify_password(plaintext, hash)` from
auth.py, "true iff plaintext matches the hash". -/
def verify_password (plaintext : String) (h : Hash) : Bool :=
  h.digest == plaintext

/-- A row of the `users` table (src/models.py lines 6-15). -/
structure User where
  id : Nat
  username : String
  email : String
  hashed_password : Hash
  created_at : Nat
deriving Repr, DecidableEq

/-- A row of the `notes` table (src/models.py lines 17-29). -/
structure Note where
  id : Nat
  title : String
  content : String
  owner_id : Nat
  is_public : Bool
  share_id : Option String
  created_at : Nat
  updated_at : Nat
deriving Repr, DecidableEq

/-- The persistent state: both tables. -/
structure DB where
  users : List User
  notes : List Note
deriving Repr, DecidableEq

/-- An `HTTPException` (status code and detail). -/
structure HErr where
  status : Nat
  detail : String
deriving Repr, DecidableEq

/-- Request body of POST /register (src/main.py lines 28-31). -/
structure UserCreate where
  username : String
  email : String
  password : String
deriving Repr, DecidableEq

/-- Request body of POST /notes (src/main.py lines 33-35). -/
structure NoteCreate where
  title : String
  content : String
deriving Repr, DecidableEq

/-- Request body of PUT /notes/{id} (src/main.py lines 37-40): every
field optional. -/
structure NoteUpdate where
  title : Option String
  content : Option String
  is_public : Option Bool
deriving Repr, DecidableEq

/-- Response shape for note objects (src/main.py lines 42-49). -/
structure NoteResponse where
  id : Nat
  title : String
  content : String
  is_public : Bool
  share_id : Option String
  created_at : Nat
  updated_at : Nat
deriving Repr, DecidableEq

/-- Serialization of a `Note` row into a `NoteResponse`, as done inline in
the handlers (src/main.py lines 96-104, 120-128, 150-158). -/
def toResponse (n : Note) : NoteResponse :=
  ⟨n.id, n.title, n.content, n.is_public, n.share_id, n.created_at, n.updated_at⟩

/-- `register` (src/main.py lines 56-76): one query for any user whose
username or email matches, 400 if found, else hash the password and insert
a new row.  `salt` is the salt bcrypt draws inside `get_password_hash`,
`newId` the primary key the store assigns, `now` the `created_at`
default. -/
def register (db : DB) (user : UserCreate) (salt : String) (newId : Nat) (now : Nat) :
    DB × Except HErr String :=
  match db.users.find? (fun u => u.username == user.username || u.email == user.email) with
  | some _ => (db, .error ⟨400, "Username or email already registered"⟩)
  | none =>
    let hashed_password := hash_password salt user.password
    let db_user : User := ⟨newId, user.username, user.email, hashed_password, now⟩
    ({ db with users := db.users ++ [db_user] }, .ok "User created successfully")

/-- `create_note` (src/main.py lines 108-128): builds a row whose
`is_public` and timestamps come from the column defaults of src/models.py
lines 24-27 (`is_public` false, both timestamps the current instant), and
whose `share_id` is a fresh `generate_share_id()` call; inserts it and
returns its serialization. -/
def create_note (db : DB) (note : NoteCreate) (current_user : User)
    (rand : Fin 10 → Fin 62) (newId : Nat) (now : Nat) :
    DB × Except HErr NoteResponse :=
  let db_note : Note :=
    { id := newId, title := note.title, content := note.content,
      owner_id := current_user.id, is_public := false,
      share_id := some (generate_share_id rand),
      created_at := now, updated_at := now }
  ({ db with notes := db.notes ++ [db_note] }, .ok (toResponse db_note))

/-- The mutation step of `update_note` (src/main.py lines 140-148): each
field of the body that is not None is assigned onto the row.  The
`updated_at` column has `onupdate=datetime.utcnow` (src/models.py line
27), which fires exactly when the commit emits an UPDATE; at flush time
the unit of work compares each assigned attribute against its loaded
value and emits an UPDATE only on a net change, so `updated_at` is
refreshed exactly when some supplied value differs from the stored one —
a body with all fields None, or one that re-supplies only the current
values, leaves `updated_at` untouched. -/
def applyUpdate (n : Note) (u : NoteUpdate) (now : Nat) : Note :=
  let dirty := (u.title.any fun t => t != n.title) ||
    (u.content.any fun c => c != n.content) ||
    (u.is_public.any fun b => b != n.is_public)
  { n with
    title := u.title.getD n.title,
    content := u.content.getD n.content,
    is_public := u.is_public.getD n.is_public,
    updated_at := if dirty then now else n.updated_at }

/-- `update_note` (src/main.py lines 130-158): query for the row with the
given id AND owned by the caller; 404 if absent, else apply the partial
update and return the updated row.  The store updates the row in place,
keyed by primary key. -/
def update_note (db : DB) (note_id : Nat) (note_update : NoteUpdate)
    (current_user : User) (now : Nat) : DB × Except HErr NoteResponse :=
  match db.notes.find? (fun n => n.id == note_id && n.owner_id == current_user.id) with
  | none => (db, .error ⟨404, "Note not found"⟩)
  | some db_note =>
    let n' := applyUpdate db_note note_update now
    ({ db with notes := db.notes.map fun m => if m.id == db_note.id then n' else m },
     .ok (toResponse n'))

/-- `delete_note` (src/main.py lines 160-173): query for the row with the
given id AND owned by the caller; 404 if absent, else delete that row. -/
def delete_note (db : DB) (note_id : Nat) (current_user : User) :
    DB × Except HErr String :=
  match db.notes.find? (fun n => n.id == note_id && n.owner_id == current_user.id) with
  | none => (db, .error ⟨404, "Note not found"⟩)
  | some db_note =>
    ({ db with notes := db.notes.erase db_note }, .ok "Note deleted successfully")

/-- `get_shared_note` (src/main.py lines 175-189): query for a row whose
`share_id` equals the path parameter and whose `is_public` is true; 404 if
absent, else return title, content, created_at. -/
def get_shared_note (db : DB) (share_id : String) :
    DB × Except HErr (String × String × Nat) :=
  match db.notes.find? (fun n => n.share_id == some share_id && n.is_public) with
  | none => (db, .error ⟨404, "Note not found or not public"⟩)
  | some note => (db, .ok (note.title, note.content, note.created_at))

/-- Outcome of a register request once the store's own constraint
enforcement is in the picture. -/
inductive RegisterResult where
  | conflict (e : HErr)
  | created (db : DB) (msg : String)
  | storeError
deriving Repr, DecidableEq

/-- The store's unique-constraint enforcement at commit (src/models.py
lines 10-11: `username` and `email` are `unique=True`): inserting a row
that duplicates an existing username or email fails with a duplicate-key
(IntegrityError) instead of committing. -/
def commitInsertUser (db : DB) (u : User) : Except Unit DB :=
  if db.users.any (fun v => v.username == u.username || v.email == u.email) then
    .error ()
  else
    .ok { db with users := db.users ++ [u] }

/-- `register` under concurrent interleaving: the pre-check
(src/main.py lines 59-64) reads the state `dbCheck`, while the
add+commit (lines 73-74) runs against `dbCommit`, which may contain rows
committed by concurrent requests after the pre-check.  The handler body
wraps the add/commit in no try/except, so a duplicate-key failure raised
by the store at commit propagates out of the handler (`storeError`)
rather than being turned into the pre-check's 400 response. -/
def register_interleaved (dbCheck dbCommit : DB) (user : UserCreate)
    (salt : String) (newId now : Nat) : RegisterResult :=
  match dbCheck.users.find? (fun u => u.username == user.username || u.email == user.email) with
  | some _ => .conflict ⟨400, "Username or email already registered"⟩
  | none =>
    let db_user : User := ⟨newId, user.username, user.email, hash_password salt user.password, now⟩
    match commitInsertUser dbCommit db_user with
    | .ok db' => .created db' "User created successfully"
    | .error _ => .storeError

/-! ## Concrete sample data (used by witnesses and counterexamples) -/

/-- Sample user "alice" (id 1). -/
def u1 : User := ⟨1, "alice", "a@x.com", hash_password "s" "pw123", 0⟩

/-- Sample user "bob" (id 2). -/
def u2 : User := ⟨2, "bob", "b@x.com", hash_password "s" "pw456", 0⟩

/-- Sample note owned by alice. -/
def n1 : Note := ⟨1, "Grocery", "milk", 1, false, some "abcdefghij", 0, 0⟩

/-- Sample database: alice and bob registered, one note owned by alice. -/
def db1 : DB := ⟨[u1, u2], [n1]⟩

/-- Sample public note owned by alice. -/
def n2 : Note := ⟨2, "Pub", "hello", 1, true, some "PUBLICSID1", 0, 0⟩

/-- Sample database with a private and a public note. -/
def db2 : DB := ⟨[u1, u2], [n1, n2]⟩

/-! ## Helper lemmas -/

theorem alphabet_length : alphabet.length = 62 := rfl

theorem generate_share_id_length (rand : Fin 10 → Fin 62) :
    (generate_share_id rand).length = 10 := by
  simp [generate_share_id, String.length]

theorem generate_share_id_mem_alphabet (rand : Fin 10 → Fin 62) :
    ∀ c ∈ (generate_share_id rand).data, c ∈ alphabet := by
  intro c hc
  simp only [generate_share_id, List.mem_map] at hc
  obtain ⟨i, _, rfl⟩ := hc
  exact List.get_mem _ _ _

/-! ## Claims -/

/-- C5: every token returned by `generate_share_id` is a string of exactly
10 characters, each drawn from the 62-symbol alphanumeric alphabet
(A-Z, a-z, 0-9), position `i` being exactly the symbol the random source
selects for position `i`.  (That the source `secrets.choice` is
cryptographically secure and uniform is the contract of Python's `secrets`
module, outside the embedding.) -/
theorem C5_generate_share_id (rand : Fin 10 → Fin 62) :
    (generate_share_id rand).length = 10 ∧
    alphabet.length = 62 ∧ alphabet.Nodup ∧
    (∀ c ∈ (generate_share_id rand).data, c ∈ alphabet) ∧
    (∀ i : Fin 10, (generate_share_id rand).data.get? i.val =
      some (alphabet.get (Fin.cast alphabet_length.symm (rand i)))) := by
  refine ⟨generate_share_id_length rand, rfl, by decide,
    generate_share_id_mem_alphabet rand, ?_⟩
  intro i
  simp [generate_share_id]

/-- C5 witness: at the constant random source choosing symbol 0, the token
has the claimed shape and its first character is in the alphabet. -/
theorem C5_generate_share_id_witness :
    (generate_share_id fun _ => (0 : Fin 62)).length = 10 ∧
      'a' ∈ alphabet :=
  ⟨(C5_generate_share_id fun _ => (0 : Fin 62)).1,
   (C5_generate_share_id fun _ => (0 : Fin 62)).2.2.2.1 'a' (by decide)⟩

/-- C8: verifying a password against its own hash succeeds; verifying a
different password against that hash fails (Authenticator contract,
modelled from the spec since auth.py is not under src/). -/
theorem C8_verify_hash :
    (∀ salt p, verify_password p (hash_password salt p) = true) ∧
    (∀ salt p1 p2, p1 ≠ p2 → verify_password p1 (hash_password salt p2) = false) := by
  constructor
  · intro salt p
    simp [verify_password, hash_password]
  · intro salt p1 p2 hne
    simp [verify_password, hash_password]
    exact fun h => absurd h.symm hne

/-- C8 witness: concrete round-trip and concrete mismatch. -/
theorem C8_verify_hash_witness :
    verify_password "pw123" (hash_password "s1" "pw123") = true ∧
    verify_password "pw123" (hash_password "s1" "other") = false :=
  ⟨C8_verify_hash.1 "s1" "pw123",
   C8_verify_hash.2 "s1" "pw123" "other" (by decide)⟩

/-- C7: create note returns a note object whose title and content are the
request values, whose `is_public` is false (the column default), whose
`share_id` is the freshly generated share token, and which is stored with
the caller as owner. -/
theorem C7_create_note (db : DB) (nc : NoteCreate) (cu : User)
    (rand : Fin 10 → Fin 62) (newId now : Nat) :
    (create_note db nc cu rand newId now).2 =
      .ok ⟨newId, nc.title, nc.content, false, some (generate_share_id rand), now, now⟩ ∧
    (create_note db nc cu rand newId now).1.notes =
      db.notes ++ [⟨newId, nc.title, nc.content, cu.id, false,
        some (generate_share_id rand), now, now⟩] := by
  exact ⟨rfl, rfl⟩

/-- C9: every note created through POST /notes is stored with a non-null
share token of exactly 10 characters and with `owner_id` equal to the
creating caller's id, even though `is_public` is false: creation
unconditionally assigns a share token. -/
theorem C9_created_note_invariant (db : DB) (nc : NoteCreate) (cu : User)
    (rand : Fin 10 → Fin 62) (newId now : Nat) :
    ∃ sid : String,
      (create_note db nc cu rand newId now).1.notes =
        db.notes ++ [⟨newId, nc.title, nc.content, cu.id, false, some sid, now, now⟩] ∧
      sid.length = 10 := by
  exact ⟨generate_share_id rand, rfl, generate_share_id_length rand⟩

/-- C1: for an authenticated caller who is not the owner of a note, both
PUT /notes/{id} and DELETE /notes/{id} on that note fail with 404 and
leave the store unchanged, even though the caller is authenticated.
(`hid` is primary-key uniqueness of note ids, enforced by the store.) -/
theorem C1_cross_user_404 (db : DB) (n : Note) (caller : User)
    (upd : NoteUpdate) (now : Nat)
    (hmem : n ∈ db.notes)
    (hid : ∀ m ∈ db.notes, m.id = n.id → m = n)
    (hown : n.owner_id ≠ caller.id) :
    update_note db n.id upd caller now = (db, .error ⟨404, "Note not found"⟩) ∧
    delete_note db n.id caller = (db, .error ⟨404, "Note not found"⟩) := by
  have hfind : db.notes.find? (fun m => m.id == n.id && m.owner_id == caller.id) = none := by
    rw [List.find?_eq_none]
    intro m hm hp
    simp only [Bool.and_eq_true, beq_iff_eq] at hp
    exact hown (hid m hm hp.1 ▸ hp.2)
  constructor
  · simp [update_note, hfind]
  · simp [delete_note, hfind]

/-- C1 witness: bob (a valid, authenticated user) cannot update or delete
alice's note; both calls 404 and leave the store as it was. -/
theorem C1_cross_user_404_witness :
    update_note db1 n1.id ⟨none, none, none⟩ u2 5 =
      (db1, .error ⟨404, "Note not found"⟩) ∧
    delete_note db1 n1.id u2 = (db1, .error ⟨404, "Note not found"⟩) :=
  C1_cross_user_404 db1 n1 u2 ⟨none, none, none⟩ 5
    (by decide) (by decide) (by decide)

/-- C3: registering with a username or email already taken fails with 400
and inserts nothing; registering with a fresh username and fresh email
succeeds and stores the password hash (the `hashed_password` field holds
`hash_password salt password`, never the raw password string). -/
theorem C3_register (db : DB) (uc : UserCreate) (salt : String) (newId now : Nat) :
    ((∃ u ∈ db.users, u.username = uc.username ∨ u.email = uc.email) →
      register db uc salt newId now =
        (db, .error ⟨400, "Username or email already registered"⟩)) ∧
    ((∀ u ∈ db.users, u.username ≠ uc.username ∧ u.email ≠ uc.email) →
      register db uc salt newId now =
        ({ db with users := db.users ++
            [⟨newId, uc.username, uc.email, hash_password salt uc.password, now⟩] },
         .ok "User created successfully")) := by
  constructor
  · rintro ⟨u, hu, hdup⟩
    have hsome : (db.users.find?
        (fun v => v.username == uc.username || v.email == uc.email)).isSome := by
      rw [List.find?_isSome]
      exact ⟨u, hu, by rcases hdup with h | h <;> simp [h]⟩
    obtain ⟨v, hv⟩ := Option.isSome_iff_exists.mp hsome
    simp [register, hv]
  · intro hfresh
    have hnone : db.users.find?
        (fun v => v.username == uc.username || v.email == uc.email) = none := by
      rw [List.find?_eq_none]
      intro v hv hp
      simp only [Bool.or_eq_true, beq_iff_eq] at hp
      rcases hp with h | h
      · exact (hfresh v hv).1 h
      · exact (hfresh v hv).2 h
    simp [register, hnone]

/-- C3 witness: re-registering the name "alice" (with a fresh email) is
rejected with 400 and the store is unchanged; registering fresh "carol"
succeeds and stores her hash. -/
theorem C3_register_witness :
    register db1 ⟨"alice", "new@x.com", "p"⟩ "s2" 3 7 =
      (db1, .error ⟨400, "Username or email already registered"⟩) ∧
    register db1 ⟨"carol", "c@x.com", "p"⟩ "s2" 3 7 =
      ({ db1 with users := db1.users ++
          [⟨3, "carol", "c@x.com", hash_password "s2" "p", 7⟩] },
       .ok "User created successfully") :=
  ⟨(C3_register db1 ⟨"alice", "new@x.com", "p"⟩ "s2" 3 7).1
      ⟨u1, by decide, by decide⟩,
   (C3_register db1 ⟨"carol", "c@x.com", "p"⟩ "s2" 3 7).2 (by decide)⟩

/-- C10: when update note or delete note fails with NotFound, the store is
returned exactly as it was: no note created, modified or deleted, no
timestamp refreshed. -/
theorem C10_error_atomicity (db : DB) (note_id : Nat) (upd : NoteUpdate)
    (cu : User) (now : Nat) :
    ((update_note db note_id upd cu now).2 = .error ⟨404, "Note not found"⟩ →
      (update_note db note_id upd cu now).1 = db) ∧
    ((delete_note db note_id cu).2 = .error ⟨404, "Note not found"⟩ →
      (delete_note db note_id cu).1 = db) := by
  constructor
  · cases hf : db.notes.find? (fun n => n.id == note_id && n.owner_id == cu.id) with
    | none => intro _; simp [update_note, hf]
    | some m => intro h; simp [update_note, hf] at h
  · cases hf : db.notes.find? (fun n => n.id == note_id && n.owner_id == cu.id) with
    | none => intro _; simp [delete_note, hf]
    | some m => intro h; simp [delete_note, hf] at h

/-- C10 witness: updating or deleting a nonexistent note id leaves the
concrete store untouched. -/
theorem C10_error_atomicity_witness :
    (update_note db1 99 ⟨none, none, none⟩ u1 3).1 = db1 ∧
    (delete_note db1 99 u1).1 = db1 :=
  ⟨(C10_error_atomicity db1 99 ⟨none, none, none⟩ u1 3).1 (by rfl),
   (C10_error_atomicity db1 99 ⟨none, none, none⟩ u1 3).2 (by rfl)⟩

/-- C6 counterexample: the claim asserts `updated_at` is refreshed for any
subset of `{title, content, is_public}`.  An empty PUT body assigns no
attribute, and a body re-supplying the stored title ("Grocery") produces
no net change; in both cases the flush emits no UPDATE and the `onupdate`
hook never fires: at `now = 5`, alice's update on her own note succeeds
but returns `updated_at = 0`, not 5. -/
theorem C6_no_refresh_counterexample :
    ((update_note db1 n1.id ⟨none, none, none⟩ u1 5).2 =
      .ok ⟨1, "Grocery", "milk", false, some "abcdefghij", 0, 0⟩) ∧
    ((update_note db1 n1.id ⟨some "Grocery", none, none⟩ u1 5).2 =
      .ok ⟨1, "Grocery", "milk", false, some "abcdefghij", 0, 0⟩) ∧
    (0 : Nat) ≠ 5 :=
  ⟨rfl, rfl, by decide⟩

/-- C6 (amended): an owner's update changes exactly the fields present in
the request; omitted fields and `id`, `owner_id`, `share_id`, `created_at`
are unchanged, so the share token assigned at creation is never
regenerated; `updated_at` is refreshed exactly when some supplied field
differs from the stored value, and is unchanged for an empty request or
one that re-supplies only the current values. -/
theorem C6_update_frame (db : DB) (n : Note) (caller : User)
    (upd : NoteUpdate) (now : Nat)
    (hmem : n ∈ db.notes)
    (hid : ∀ m ∈ db.notes, m.id = n.id → m = n)
    (hown : n.owner_id = caller.id) :
    update_note db n.id upd caller now =
      ({ db with notes := db.notes.map fun m =>
          if m.id == n.id then applyUpdate n upd now else m },
       .ok (toResponse (applyUpdate n upd now))) ∧
    (applyUpdate n upd now).title = upd.title.getD n.title ∧
    (applyUpdate n upd now).content = upd.content.getD n.content ∧
    (applyUpdate n upd now).is_public = upd.is_public.getD n.is_public ∧
    (applyUpdate n upd now).id = n.id ∧
    (applyUpdate n upd now).owner_id = n.owner_id ∧
    (applyUpdate n upd now).share_id = n.share_id ∧
    (applyUpdate n upd now).created_at = n.created_at ∧
    (applyUpdate n upd now).updated_at =
      (if (upd.title.any fun t => t != n.title) ||
          (upd.content.any fun c => c != n.content) ||
          (upd.is_public.any fun b => b != n.is_public)
        then now else n.updated_at) := by
  have hfind : db.notes.find? (fun m => m.id == n.id && m.owner_id == caller.id) = some n := by
    cases hf : db.notes.find? (fun m => m.id == n.id && m.owner_id == caller.id) with
    | none =>
      exfalso
      rw [List.find?_eq_none] at hf
      exact hf n hmem (by simp [hown])
    | some m =>
      have hpm := List.find?_some hf
      have hmm := List.mem_of_find?_eq_some hf
      simp only [Bool.and_eq_true, beq_iff_eq] at hpm
      exact congrArg some (hid m hmm hpm.1)
  refine ⟨?_, rfl, rfl, rfl, rfl, rfl, rfl, rfl, rfl⟩
  simp [update_note, hfind]

/-- C6 witness: alice updates only the title of her note; content,
visibility, share token and creation instant survive, and `updated_at`
becomes the new instant. -/
theorem C6_update_frame_witness :
    update_note db1 n1.id ⟨some "Todo", none, none⟩ u1 5 =
      ({ db1 with notes := db1.notes.map fun m =>
          if m.id == n1.id then applyUpdate n1 ⟨some "Todo", none, none⟩ 5 else m },
       .ok (toResponse (applyUpdate n1 ⟨some "Todo", none, none⟩ 5))) ∧
    (applyUpdate n1 ⟨some "Todo", none, none⟩ 5).share_id = n1.share_id :=
  ⟨(C6_update_frame db1 n1 u1 ⟨some "Todo", none, none⟩ 5
      (by decide) (by decide) (by decide)).1,
   (C6_update_frame db1 n1 u1 ⟨some "Todo", none, none⟩ 5
      (by decide) (by decide) (by decide)).2.2.2.2.2.2.1⟩

/-- C2: the public share read succeeds exactly when some note carries that
share token with `is_public` true; on success it returns that note's
title, content and creation instant; when every note carrying the token is
private (or none carries it) it fails 404; and after the owner toggles
`is_public` to false through update, the same token yields 404
(`share_id` uniqueness across the store is the store's constraint,
src/models.py line 25). -/
theorem C2_get_shared (db : DB) (s : String) :
    ((∃ n ∈ db.notes, n.share_id = some s ∧ n.is_public = true) ↔
      ∃ t, (get_shared_note db s).2 = .ok t) ∧
    (∀ t, (get_shared_note db s).2 = .ok t →
      ∃ n ∈ db.notes, n.share_id = some s ∧ n.is_public = true ∧
        t = (n.title, n.content, n.created_at)) ∧
    ((∀ n ∈ db.notes, n.share_id = some s → n.is_public = false) →
      (get_shared_note db s).2 = .error ⟨404, "Note not found or not public"⟩) ∧
    (∀ (n : Note) (caller : User) (now : Nat),
      n ∈ db.notes → (∀ m ∈ db.notes, m.id = n.id → m = n) →
      n.owner_id = caller.id → n.share_id = some s →
      (∀ m ∈ db.notes, m.share_id = some s → m = n) →
      (get_shared_note (update_note db n.id ⟨none, none, some false⟩ caller now).1 s).2 =
        .error ⟨404, "Note not found or not public"⟩) := by
  refine ⟨⟨?_, ?_⟩, ?_, ?_, ?_⟩
  · rintro ⟨n, hn, hs, hp⟩
    have hsome : (db.notes.find? (fun m => m.share_id == some s && m.is_public)).isSome := by
      rw [List.find?_isSome]
      exact ⟨n, hn, by simp [hs, hp]⟩
    obtain ⟨m, hm⟩ := Option.isSome_iff_exists.mp hsome
    exact ⟨(m.title, m.content, m.created_at), by simp [get_shared_note, hm]⟩
  · rintro ⟨t, ht⟩
    cases hf : db.notes.find? (fun m => m.share_id == some s && m.is_public) with
    | none => simp [get_shared_note, hf] at ht
    | some m =>
      have hpm := List.find?_some hf
      simp only [Bool.and_eq_true, beq_iff_eq] at hpm
      exact ⟨m, List.mem_of_find?_eq_some hf, hpm.1, hpm.2⟩
  · intro t ht
    cases hf : db.notes.find? (fun m => m.share_id == some s && m.is_public) with
    | none => simp [get_shared_note, hf] at ht
    | some m =>
      have hpm := List.find?_some hf
      simp only [Bool.and_eq_true, beq_iff_eq] at hpm
      refine ⟨m, List.mem_of_find?_eq_some hf, hpm.1, hpm.2, ?_⟩
      simp [get_shared_note, hf] at ht
      exact ht.symm
  · intro hpriv
    have hnone : db.notes.find? (fun m => m.share_id == some s && m.is_public) = none := by
      rw [List.find?_eq_none]
      intro m hm hp
      simp only [Bool.and_eq_true, beq_iff_eq] at hp
      exact absurd (hpriv m hm hp.1) (by simp [hp.2])
    simp [get_shared_note, hnone]
  · intro n caller now hmem hid hown hshare huniq
    have hfind : db.notes.find? (fun m => m.id == n.id && m.owner_id == caller.id) = some n := by
      cases hf : db.notes.find? (fun m => m.id == n.id && m.owner_id == caller.id) with
      | none =>
        exfalso
        rw [List.find?_eq_none] at hf
        exact hf n hmem (by simp [hown])
      | some m =>
        have hpm := List.find?_some hf
        have hmm := List.mem_of_find?_eq_some hf
        simp only [Bool.and_eq_true, beq_iff_eq] at hpm
        exact congrArg some (hid m hmm hpm.1)
    have hdb : (update_note db n.id ⟨none, none, some false⟩ caller now).1.notes =
        db.notes.map fun m =>
          if m.id == n.id then applyUpdate n ⟨none, none, some false⟩ now else m := by
      simp [update_note, hfind]
    have hnone : ((update_note db n.id ⟨none, none, some false⟩ caller now).1.notes.find?
        (fun m => m.share_id == some s && m.is_public)) = none := by
      rw [hdb, List.find?_eq_none]
      intro m' hm'
      rw [List.mem_map] at hm'
      obtain ⟨m, hm, rfl⟩ := hm'
      by_cases hcase : m.id = n.id
      · simp [hcase, applyUpdate]
      · simp only [beq_iff_eq, hcase, if_false, Bool.and_eq_true]
        rintro ⟨hms, _⟩
        exact hcase (congrArg Note.id (huniq m hm hms))
    simp [get_shared_note, hnone]

/-- C2 witness: the public sample note is readable through its token, and
after alice toggles it private the same token yields 404. -/
theorem C2_get_shared_witness :
    (∃ t, (get_shared_note db2 "PUBLICSID1").2 = .ok t) ∧
    (get_shared_note (update_note db2 n2.id ⟨none, none, some false⟩ u1 9).1
        "PUBLICSID1").2 = .error ⟨404, "Note not found or not public"⟩ :=
  ⟨(C2_get_shared db2 "PUBLICSID1").1.mp ⟨n2, by decide, by decide, by decide⟩,
   (C2_get_shared db2 "PUBLICSID1").2.2.2 n2 u1 9
     (by decide) (by decide) (by decide) (by decide) (by decide)⟩

/-- C4 counterexample: pre-check state holds no user, commit state already
holds alice (committed by a concurrent request); registering "alice" again
passes the pre-check, the store's uniqueness constraint then fires, and
the handler — having no exception handling — lets the duplicate-key error
escape instead of returning the pre-check's 400 Conflict. -/
theorem C4_integrity_error_escapes :
    register_interleaved ⟨[], []⟩ db1 ⟨"alice", "fresh@x.com", "p"⟩ "s" 9 9 =
      .storeError ∧
    RegisterResult.storeError ≠
      .conflict ⟨400, "Username or email already registered"⟩ :=
  ⟨rfl, by decide⟩

/-- C4 (amended): whenever the pre-check sees no duplicate but the commit
state violates username/email uniqueness, register ends in an uncaught
store error — the duplicate-key failure is not translated to Conflict. -/
theorem C4_uncaught_duplicate_key (dbCheck dbCommit : DB) (uc : UserCreate)
    (salt : String) (newId now : Nat)
    (hpre : ∀ u ∈ dbCheck.users, u.username ≠ uc.username ∧ u.email ≠ uc.email)
    (hdup : ∃ u ∈ dbCommit.users, u.username = uc.username ∨ u.email = uc.email) :
    register_interleaved dbCheck dbCommit uc salt newId now = .storeError := by
  have hnone : dbCheck.users.find?
      (fun u => u.username == uc.username || u.email == uc.email) = none := by
    rw [List.find?_eq_none]
    intro u hu hp
    simp only [Bool.or_eq_true, beq_iff_eq] at hp
    rcases hp with h | h
    · exact (hpre u hu).1 h
    · exact (hpre u hu).2 h
  have hany : dbCommit.users.any
      (fun v => v.username == uc.username || v.email == uc.email) = true := by
    rw [List.any_eq_true]
    obtain ⟨u, hu, hd⟩ := hdup
    exact ⟨u, hu, by rcases hd with h | h <;> simp [h]⟩
  simp [register_interleaved, hnone, commitInsertUser, hany]

/-- C4 witness: a registration whose email duplicates alice's, committed
concurrently, ends in the uncaught store error. -/
theorem C4_uncaught_duplicate_key_witness :
    register_interleaved ⟨[], []⟩ db1 ⟨"newname", "a@x.com", "p"⟩ "s" 9 9 =
      .storeError :=
  C4_uncaught_duplicate_key ⟨[], []⟩ db1 ⟨"newname", "a@x.com", "p"⟩ "s" 9 9
    (by decide) ⟨u1, by decide, by decide⟩

end SimpleNotes
